import Mathlib

/-!
Shallow embedding of the GoConnect desktop daemon IPC client bridge
(`src/desktop/src-tauri/src/daemon.rs` and `src/desktop/src-tauri/src/commands.rs`).

The bridge is a thin gRPC client: every facade operation sends one request and
maps the wire response into an application-level value. We embed the pure
response-mapping (and request-building) logic of each operation as a Lean
function from the wire response to the mapped value; the transport round trip
itself is abstracted as the response value (or an `Except` outcome where an
operation's error behaviour is at issue). Machine integers on the wire (proto
`i32`/`i64`) are embedded as `Int`; Rust's `as u64`/`as u32` casts are the
two's-complement reinterpretation, embedded with an explicit `% 2 ^ w`.
-/

namespace GoConnect

/-- Reinterpretation of a signed 64-bit wire integer as `u64` (Rust `as u64`). -/
def u64ofInt (i : Int) : Nat := (i % (2 : Int) ^ 64).toNat

/-- Reinterpretation of a signed 32-bit wire integer as `u32` (Rust `as u32`). -/
def u32ofInt (i : Int) : Nat := (i % (2 : Int) ^ 32).toNat

/-- Wrapping `u32` addition: Rust `+=` on a `u32` field in release builds. -/
def u32add (a b : Nat) : Nat := (a + b) % 2 ^ 32

/-- Wrapping `u64` addition: Rust `+=` on a `u64` field in release builds. -/
def u64add (a b : Nat) : Nat := (a + b) % 2 ^ 64

/-! ## Wire (protobuf) message types used by the transfer service -/

/-- Proto `Transfer` message as received from the daemon. -/
structure WireTransfer where
  id : String
  peer_id : String
  filename : String
  size_bytes : Int
  transferred_bytes : Int
  status : Int
  is_incoming : Bool
  error_message : String
deriving DecidableEq, Repr

/-! ## Application-level transfer types (`daemon.rs` data types) -/

/-- `TransferInfo` from `daemon.rs`. -/
structure TransferInfo where
  id : String
  peer_id : String
  file_name : String
  file_size : Nat
  transferred : Nat
  status : String
  direction : String
  error : Option String
deriving DecidableEq, Repr

/-- `TransferStats` from `daemon.rs`. The counter fields are `u32` values and
the byte totals `u64` values, represented as `Nat`; the accumulation in
`statsStep` wraps with `u32add`/`u64add`, matching Rust release-mode `+=`. -/
structure TransferStats where
  total_uploads : Nat
  total_downloads : Nat
  active_transfers : Nat
  completed_transfers : Nat
  failed_transfers : Nat
  total_bytes_sent : Nat
  total_bytes_received : Nat
deriving DecidableEq, Repr

/-- The `match t.status` table inside `DaemonClient::list_transfers`. -/
def transferStatusLabel (s : Int) : String :=
  if s = 0 then "pending"
  else if s = 1 then "pending"
  else if s = 2 then "active"
  else if s = 3 then "completed"
  else if s = 4 then "failed"
  else if s = 5 then "cancelled"
  else "unknown"

/-- The per-element mapping applied by `DaemonClient::list_transfers`. -/
def mapTransfer (t : WireTransfer) : TransferInfo :=
  { id := t.id
    peer_id := t.peer_id
    file_name := t.filename
    file_size := u64ofInt t.size_bytes
    transferred := u64ofInt t.transferred_bytes
    status := transferStatusLabel t.status
    direction := if t.is_incoming then "download" else "upload"
    error := if t.error_message = "" then none else some t.error_message }

/-- `DaemonClient::list_transfers`: the `_status` and `_peer_id` filter
arguments are accepted but unused; the wire response's transfer list is mapped
element-wise. -/
def list_transfers (_status : Option String) (_peer_id : Option String)
    (resp : List WireTransfer) : List TransferInfo :=
  resp.map mapTransfer

/-- The zero-initialised accumulator in `DaemonClient::get_transfer_stats`. -/
def initStats : TransferStats :=
  { total_uploads := 0
    total_downloads := 0
    active_transfers := 0
    completed_transfers := 0
    failed_transfers := 0
    total_bytes_sent := 0
    total_bytes_received := 0 }

/-- One iteration of the `for t in transfers` loop in
`DaemonClient::get_transfer_stats`; the `+=` updates on the `u32`/`u64`
fields are wrapping machine additions. -/
def statsStep (stats : TransferStats) (t : TransferInfo) : TransferStats :=
  let s1 :=
    if t.direction = "upload" then
      { stats with
        total_uploads := u32add stats.total_uploads 1
        total_bytes_sent := u64add stats.total_bytes_sent t.transferred }
    else
      { stats with
        total_downloads := u32add stats.total_downloads 1
        total_bytes_received := u64add stats.total_bytes_received t.transferred }
  if t.status = "active" then
    { s1 with active_transfers := u32add s1.active_transfers 1 }
  else if t.status = "completed" then
    { s1 with completed_transfers := u32add s1.completed_transfers 1 }
  else if t.status = "failed" ∨ t.status = "cancelled" ∨ t.status = "rejected" then
    { s1 with failed_transfers := u32add s1.failed_transfers 1 }
  else s1

/-- `DaemonClient::get_transfer_stats`: calls `list_transfers(None, None)` and
folds the result with the loop body `statsStep`. -/
def get_transfer_stats (resp : List WireTransfer) : TransferStats :=
  (list_transfers none none resp).foldl statsStep initStats

/-! ## Error type (`DaemonError` in `daemon.rs`) -/

/-- `DaemonError` from `daemon.rs`. The `Rpc` variant carries the gRPC status
as an opaque string. -/
inductive DaemonError where
  | TokenNotFound (msg : String)
  | Connection (msg : String)
  | Rpc (status : String)
  | InvalidResponse (msg : String)
deriving DecidableEq, Repr

/-! ## Token loading (`DaemonClient::load_ipc_token`) -/

/-- The Unicode White_Space predicate used by Rust's `str::trim`. -/
def rustIsWhitespace (c : Char) : Bool :=
  let n := c.toNat
  (9 ≤ n && n ≤ 13) || n == 32 || n == 133 || n == 160 || n == 5760 ||
    (8192 ≤ n && n ≤ 8202) || n == 8232 || n == 8233 || n == 8239 ||
    n == 8287 || n == 12288

/-- Rust `str::trim` on the underlying character list: drop whitespace from
the front (`trim_start`) and then from the back (`trim_end`). -/
def trimChars (l : List Char) : List Char :=
  (l.dropWhile rustIsWhitespace).rdropWhile rustIsWhitespace

/-- Rust `str::trim` lifted to `String`. -/
def strTrim (s : String) : String := String.mk (trimChars s.data)

/-- `DaemonClient::load_ipc_token`: the filesystem read is abstracted as its
outcome (`Except` over the file's contents); on success the token is the file's
contents trimmed. -/
def load_ipc_token (fileContent : Except String String) : Except DaemonError String :=
  match fileContent with
  | .error e => .error (.TokenNotFound e)
  | .ok token => .ok (strTrim token)

/-! ## Authenticated request wrapper (`DaemonClient::add_auth`) -/

/-- The metadata header name carrying the IPC token. -/
def IPC_TOKEN_HEADER : String := "x-goconnect-ipc-token"

/-- A gRPC request: a metadata map (association list) plus a body. -/
structure GRequest (T : Type) where
  metadata : List (String × String)
  body : T
deriving DecidableEq, Repr

/-- Modelled from the spec: the check whether a Credential "can be encoded as a
valid metadata value" (`self.token.parse::<MetadataValue<_>>()` succeeding).
The check itself lives in the `tonic`/`http` dependency, not under `src/`; per
the header-value grammar a string is valid when every character is horizontal
tab or a non-DEL byte of code at least 32. -/
def is_valid_metadata_value (s : String) : Bool :=
  s.data.all fun c => c.toNat == 9 || (32 ≤ c.toNat && c.toNat ≤ 255 && c.toNat != 127)

/-- `MetadataMap::insert`: replace any existing entry for the key. -/
def insertMeta (m : List (String × String)) (k v : String) : List (String × String) :=
  (m.filter fun kv => kv.1 ≠ k) ++ [(k, v)]

/-- Look up a metadata key. -/
def lookupMeta (m : List (String × String)) (k : String) : Option String :=
  (m.find? fun kv => kv.1 == k).map Prod.snd

/-- `DaemonClient::add_auth`: if the token parses as a metadata value, insert
it under `IPC_TOKEN_HEADER`; otherwise return the request unchanged. Total:
no error path exists. -/
def add_auth {T : Type} (token : String) (request : GRequest T) : GRequest T :=
  if is_valid_metadata_value token then
    { request with metadata := insertMeta request.metadata IPC_TOKEN_HEADER token }
  else request

/-- The wire request sent by `DaemonClient::list_transfers`:
`self.add_auth(Request::new(()))`, independent of the filter arguments. -/
def list_transfers_request (token : String) (_status : Option String)
    (_peer_id : Option String) : GRequest Unit :=
  add_auth token { metadata := [], body := () }

/-! ## Daemon status service (`DaemonClient::get_status`) -/

/-- Proto `GetStatusResponse` fields read by the mapping. -/
structure WireStatusResponse where
  status : Int
  virtual_ip : String
  active_peers : Int
  current_network_name : String
deriving DecidableEq, Repr

/-- `DaemonStatus` from `daemon.rs`. -/
structure DaemonStatus where
  connected : Bool
  virtual_ip : String
  active_peers : Nat
  network_name : String
deriving DecidableEq, Repr

/-- Modelled from the spec: the wire integer of the connection-status enum's
"connected" variant (`proto::ConnectionStatus::Connected as i32`). The
generated protobuf module is produced by `build.rs` from a `.proto` file that
is not under `src/`, so the concrete integer is a fixed but arbitrary code. -/
def connectionStatusConnected : Int := 2

/-- Modelled from the spec: the wire integer of the connection-type enum's
"relay" variant (`proto::ConnectionType::Relay as i32`); same provenance as
`connectionStatusConnected`. -/
def connectionTypeRelay : Int := 2

/-- `DaemonClient::get_status`: response mapping. -/
def get_status (resp : WireStatusResponse) : DaemonStatus :=
  { connected := decide (resp.status = connectionStatusConnected)
    virtual_ip := resp.virtual_ip
    active_peers := u32ofInt resp.active_peers
    network_name := resp.current_network_name }

/-! ## Peer service (`DaemonClient::get_peers`) -/

/-- Proto `Peer` message fields read by the mapping. -/
structure WirePeer where
  id : String
  name : String
  display_name : String
  virtual_ip : String
  status : Int
  connection_type : Int
  latency_ms : Int
deriving DecidableEq, Repr

/-- `PeerInfo` from `daemon.rs`. -/
structure PeerInfo where
  id : String
  name : String
  display_name : String
  virtual_ip : String
  connected : Bool
  is_relay : Bool
  latency_ms : Int
deriving DecidableEq, Repr

/-- The per-element mapping applied by `DaemonClient::get_peers`. -/
def mapPeer (p : WirePeer) : PeerInfo :=
  { id := p.id
    name := p.name
    display_name := p.display_name
    virtual_ip := p.virtual_ip
    connected := decide (p.status = connectionStatusConnected)
    is_relay := decide (p.connection_type = connectionTypeRelay)
    latency_ms := p.latency_ms }

/-- `DaemonClient::get_peers`: response mapping. -/
def get_peers (resp : List WirePeer) : List PeerInfo :=
  resp.map mapPeer

/-! ## Network service (`create_network`, `join_network`) -/

/-- Proto `Network` message. -/
structure WireNetwork where
  id : String
  name : String
  invite_code : String
deriving DecidableEq, Repr

/-- `NetworkInfo` from `daemon.rs`. -/
structure NetworkInfo where
  id : String
  name : String
  invite_code : String
deriving DecidableEq, Repr

/-- Proto `CreateNetworkResponse`. -/
structure CreateNetworkResponse where
  network : Option WireNetwork
  invite_code : String
deriving DecidableEq, Repr

/-- Proto `JoinNetworkResponse`. -/
structure JoinNetworkResponse where
  network : Option WireNetwork
deriving DecidableEq, Repr

/-- `DaemonClient::create_network`: response mapping, including the
`ok_or_else` missing-network check. -/
def create_network (resp : CreateNetworkResponse) : Except DaemonError NetworkInfo :=
  match resp.network with
  | none => .error (.InvalidResponse "missing network")
  | some network =>
    .ok { id := network.id, name := network.name, invite_code := resp.invite_code }

/-- `DaemonClient::join_network`: response mapping; the `invite_code` field of
the result is set to the empty string. -/
def join_network (resp : JoinNetworkResponse) : Except DaemonError NetworkInfo :=
  match resp.network with
  | none => .error (.InvalidResponse "missing network")
  | some network =>
    .ok { id := network.id, name := network.name, invite_code := "" }

/-! ## Settings service (`get_settings`, `update_settings`, `reset_settings`) -/

/-- Proto `Settings` message. -/
structure WireSettings where
  auto_connect : Bool
  start_minimized : Bool
  notifications_enabled : Bool
  auto_accept_files : Bool
  download_path : String
  max_upload_speed_kbps : Int
  max_download_speed_kbps : Int
  theme : String
  language : String
deriving DecidableEq, Repr

/-- `Settings` from `daemon.rs`. -/
structure Settings where
  auto_connect : Bool
  start_minimized : Bool
  notifications_enabled : Bool
  log_level : String
deriving DecidableEq, Repr

/-- `DaemonClient::get_settings`: response mapping; `log_level` is not in the
proto, so the default empty string is used. -/
def get_settings (resp : WireSettings) : Settings :=
  { auto_connect := resp.auto_connect
    start_minimized := resp.start_minimized
    notifications_enabled := resp.notifications_enabled
    log_level := "" }

/-- Proto `UpdateSettingsRequest`. -/
structure UpdateSettingsRequest where
  settings : Option WireSettings
deriving DecidableEq, Repr

/-- The wire request built by `DaemonClient::update_settings` from the local
`Settings` argument. -/
def update_settings_request (settings : Settings) : UpdateSettingsRequest :=
  { settings := some
      { auto_connect := settings.auto_connect
        start_minimized := settings.start_minimized
        notifications_enabled := settings.notifications_enabled
        auto_accept_files := false
        download_path := ""
        max_upload_speed_kbps := 0
        max_download_speed_kbps := 0
        theme := ""
        language := "" } }

/-- `DaemonClient::update_settings`: response mapping (the local `Settings`
argument feeds only the request, never the mapped response). -/
def update_settings (_settings : Settings) (resp : WireSettings) : Settings :=
  { auto_connect := resp.auto_connect
    start_minimized := resp.start_minimized
    notifications_enabled := resp.notifications_enabled
    log_level := "" }

/-- `DaemonClient::reset_settings`: response mapping. -/
def reset_settings (resp : WireSettings) : Settings :=
  { auto_connect := resp.auto_connect
    start_minimized := resp.start_minimized
    notifications_enabled := resp.notifications_enabled
    log_level := "" }

/-! ## Chat service (`DaemonClient::get_messages`) -/

/-- Proto well-known `Timestamp`. -/
structure WireTimestamp where
  seconds : Int
  nanos : Int
deriving DecidableEq, Repr

/-- Proto `ChatMessage` message fields read by the mapping. -/
structure WireChatMessage where
  id : String
  sender_id : String
  content : String
  sent_at : Option WireTimestamp
deriving DecidableEq, Repr

/-- `ChatMessage` from `daemon.rs`. -/
structure ChatMessage where
  id : String
  peer_id : String
  content : String
  timestamp : String
  is_self : Bool
deriving DecidableEq, Repr

/-- The per-element mapping applied by `DaemonClient::get_messages`. -/
def mapMessage (m : WireChatMessage) : ChatMessage :=
  { id := m.id
    peer_id := m.sender_id
    content := m.content
    timestamp := (m.sent_at.map fun t => toString t.seconds).getD ""
    is_self := false }

/-- `DaemonClient::get_messages`: response mapping (the arguments feed only the
request, never the mapping). -/
def get_messages (_network_id : String) (_limit : Int) (_before : Option String)
    (resp : List WireChatMessage) : List ChatMessage :=
  resp.map mapMessage

/-! ## Liveness probe (`daemon_is_running` in `commands.rs`) -/

/-- The cached bridge value: `DaemonClient` is a channel plus the loaded
token; the channel is abstracted away. -/
structure Bridge where
  token : String
deriving DecidableEq, Repr

/-- `daemon_is_running` from `commands.rs`: ignores the cached state
(`_state`), performs a fresh `DaemonClient::connect()` followed by
`get_status()`, and maps every outcome to `Ok(bool)`. The two RPC steps are
abstracted as their outcomes. -/
def daemon_is_running (_state : Option Bridge)
    (connectOutcome : Except DaemonError Bridge)
    (statusOutcome : Bridge → Except DaemonError DaemonStatus) :
    Except String Bool :=
  match connectOutcome with
  | .ok client =>
    match statusOutcome client with
    | .ok _ => .ok true
    | .error _ => .ok false
  | .error _ => .ok false

/-! ## Lemmas about the stats fold -/

lemma statsStep_total_uploads (s : TransferStats) (t : TransferInfo) :
    (statsStep s t).total_uploads =
      if t.direction = "upload" then (s.total_uploads + 1) % 2 ^ 32
      else s.total_uploads := by
  simp only [statsStep, u32add, u64add]
  split_ifs <;> simp_all

lemma statsStep_total_downloads (s : TransferStats) (t : TransferInfo) :
    (statsStep s t).total_downloads =
      if t.direction = "upload" then s.total_downloads
      else (s.total_downloads + 1) % 2 ^ 32 := by
  simp only [statsStep, u32add, u64add]
  split_ifs <;> simp_all

lemma statsStep_bytes_sent (s : TransferStats) (t : TransferInfo) :
    (statsStep s t).total_bytes_sent =
      if t.direction = "upload" then (s.total_bytes_sent + t.transferred) % 2 ^ 64
      else s.total_bytes_sent := by
  simp only [statsStep, u32add, u64add]
  split_ifs <;> simp_all

lemma statsStep_bytes_received (s : TransferStats) (t : TransferInfo) :
    (statsStep s t).total_bytes_received =
      if t.direction = "upload" then s.total_bytes_received
      else (s.total_bytes_received + t.transferred) % 2 ^ 64 := by
  simp only [statsStep, u32add, u64add]
  split_ifs <;> simp_all

lemma statsStep_active (s : TransferStats) (t : TransferInfo) :
    (statsStep s t).active_transfers =
      if t.status = "active" then (s.active_transfers + 1) % 2 ^ 32
      else s.active_transfers := by
  simp only [statsStep, u32add, u64add]
  split_ifs <;> simp_all

lemma statsStep_completed (s : TransferStats) (t : TransferInfo) :
    (statsStep s t).completed_transfers =
      if t.status = "completed" then (s.completed_transfers + 1) % 2 ^ 32
      else s.completed_transfers := by
  simp only [statsStep, u32add, u64add]
  split_ifs <;> simp_all

lemma statsStep_failed (s : TransferStats) (t : TransferInfo) :
    (statsStep s t).failed_transfers =
      if t.status = "failed" ∨ t.status = "cancelled" ∨ t.status = "rejected"
        then (s.failed_transfers + 1) % 2 ^ 32
      else s.failed_transfers := by
  simp only [statsStep, u32add, u64add]
  split_ifs <;> simp_all

lemma foldl_statsStep_total_uploads (l : List TransferInfo) :
    ∀ s : TransferStats, s.total_uploads < 2 ^ 32 →
      (l.foldl statsStep s).total_uploads =
        (s.total_uploads +
          (l.filter fun t => decide (t.direction = "upload")).length) % 2 ^ 32 := by
  induction l with
  | nil =>
    intro s hs
    simp
    omega
  | cons t l ih =>
    intro s hs
    have hb : (statsStep s t).total_uploads < 2 ^ 32 := by
      rw [statsStep_total_uploads]
      split_ifs
      · exact Nat.mod_lt _ (by norm_num)
      · exact hs
    rw [List.foldl_cons, ih (statsStep s t) hb, statsStep_total_uploads]
    by_cases h : t.direction = "upload"
    · rw [if_pos h, List.filter_cons_of_pos (by simpa using h), List.length_cons,
        Nat.mod_add_mod]
      congr 1
      omega
    · rw [if_neg h, List.filter_cons_of_neg (by simpa using h)]

lemma foldl_statsStep_total_downloads (l : List TransferInfo) :
    ∀ s : TransferStats, s.total_downloads < 2 ^ 32 →
      (l.foldl statsStep s).total_downloads =
        (s.total_downloads +
          (l.filter fun t => decide (¬ t.direction = "upload")).length) % 2 ^ 32 := by
  induction l with
  | nil =>
    intro s hs
    simp
    omega
  | cons t l ih =>
    intro s hs
    have hb : (statsStep s t).total_downloads < 2 ^ 32 := by
      rw [statsStep_total_downloads]
      split_ifs
      · exact hs
      · exact Nat.mod_lt _ (by norm_num)
    rw [List.foldl_cons, ih (statsStep s t) hb, statsStep_total_downloads]
    by_cases h : t.direction = "upload"
    · rw [if_pos h, List.filter_cons_of_neg (by simpa using h)]
    · rw [if_neg h, List.filter_cons_of_pos (by simpa using h), List.length_cons,
        Nat.mod_add_mod]
      congr 1
      omega

lemma foldl_statsStep_bytes_sent (l : List TransferInfo) :
    ∀ s : TransferStats, s.total_bytes_sent < 2 ^ 64 →
      (l.foldl statsStep s).total_bytes_sent =
        (s.total_bytes_sent +
          (((l.filter fun t => decide (t.direction = "upload")).map
            TransferInfo.transferred).sum)) % 2 ^ 64 := by
  induction l with
  | nil =>
    intro s hs
    simp
    omega
  | cons t l ih =>
    intro s hs
    have hb : (statsStep s t).total_bytes_sent < 2 ^ 64 := by
      rw [statsStep_bytes_sent]
      split_ifs
      · exact Nat.mod_lt _ (by norm_num)
      · exact hs
    rw [List.foldl_cons, ih (statsStep s t) hb, statsStep_bytes_sent]
    by_cases h : t.direction = "upload"
    · rw [if_pos h, List.filter_cons_of_pos (by simpa using h), List.map_cons,
        List.sum_cons, Nat.mod_add_mod]
      congr 1
      omega
    · rw [if_neg h, List.filter_cons_of_neg (by simpa using h)]

lemma foldl_statsStep_bytes_received (l : List TransferInfo) :
    ∀ s : TransferStats, s.total_bytes_received < 2 ^ 64 →
      (l.foldl statsStep s).total_bytes_received =
        (s.total_bytes_received +
          (((l.filter fun t => decide (¬ t.direction = "upload")).map
            TransferInfo.transferred).sum)) % 2 ^ 64 := by
  induction l with
  | nil =>
    intro s hs
    simp
    omega
  | cons t l ih =>
    intro s hs
    have hb : (statsStep s t).total_bytes_received < 2 ^ 64 := by
      rw [statsStep_bytes_received]
      split_ifs
      · exact hs
      · exact Nat.mod_lt _ (by norm_num)
    rw [List.foldl_cons, ih (statsStep s t) hb, statsStep_bytes_received]
    by_cases h : t.direction = "upload"
    · rw [if_pos h, List.filter_cons_of_neg (by simpa using h)]
    · rw [if_neg h, List.filter_cons_of_pos (by simpa using h), List.map_cons,
        List.sum_cons, Nat.mod_add_mod]
      congr 1
      omega

lemma foldl_statsStep_active (l : List TransferInfo) :
    ∀ s : TransferStats, s.active_transfers < 2 ^ 32 →
      (l.foldl statsStep s).active_transfers =
        (s.active_transfers +
          (l.filter fun t => decide (t.status = "active")).length) % 2 ^ 32 := by
  induction l with
  | nil =>
    intro s hs
    simp
    omega
  | cons t l ih =>
    intro s hs
    have hb : (statsStep s t).active_transfers < 2 ^ 32 := by
      rw [statsStep_active]
      split_ifs
      · exact Nat.mod_lt _ (by norm_num)
      · exact hs
    rw [List.foldl_cons, ih (statsStep s t) hb, statsStep_active]
    by_cases h : t.status = "active"
    · rw [if_pos h, List.filter_cons_of_pos (by simpa using h), List.length_cons,
        Nat.mod_add_mod]
      congr 1
      omega
    · rw [if_neg h, List.filter_cons_of_neg (by simpa using h)]

lemma foldl_statsStep_completed (l : List TransferInfo) :
    ∀ s : TransferStats, s.completed_transfers < 2 ^ 32 →
      (l.foldl statsStep s).completed_transfers =
        (s.completed_transfers +
          (l.filter fun t => decide (t.status = "completed")).length) % 2 ^ 32 := by
  induction l with
  | nil =>
    intro s hs
    simp
    omega
  | cons t l ih =>
    intro s hs
    have hb : (statsStep s t).completed_transfers < 2 ^ 32 := by
      rw [statsStep_completed]
      split_ifs
      · exact Nat.mod_lt _ (by norm_num)
      · exact hs
    rw [List.foldl_cons, ih (statsStep s t) hb, statsStep_completed]
    by_cases h : t.status = "completed"
    · rw [if_pos h, List.filter_cons_of_pos (by simpa using h), List.length_cons,
        Nat.mod_add_mod]
      congr 1
      omega
    · rw [if_neg h, List.filter_cons_of_neg (by simpa using h)]

lemma foldl_statsStep_failed (l : List TransferInfo) :
    ∀ s : TransferStats, s.failed_transfers < 2 ^ 32 →
      (l.foldl statsStep s).failed_transfers =
        (s.failed_transfers +
          (l.filter fun t =>
            decide (t.status = "failed" ∨ t.status = "cancelled" ∨
              t.status = "rejected")).length) % 2 ^ 32 := by
  induction l with
  | nil =>
    intro s hs
    simp
    omega
  | cons t l ih =>
    intro s hs
    have hb : (statsStep s t).failed_transfers < 2 ^ 32 := by
      rw [statsStep_failed]
      split_ifs
      · exact Nat.mod_lt _ (by norm_num)
      · exact hs
    rw [List.foldl_cons, ih (statsStep s t) hb, statsStep_failed]
    by_cases h : t.status = "failed" ∨ t.status = "cancelled" ∨ t.status = "rejected"
    · rw [if_pos h, List.filter_cons_of_pos (by simpa using h), List.length_cons,
        Nat.mod_add_mod]
      congr 1
      omega
    · rw [if_neg h, List.filter_cons_of_neg (by simpa using h)]

lemma filter_length_add_filter_not (p : α → Prop) [DecidablePred p] (l : List α) :
    (l.filter fun a => decide (p a)).length +
      (l.filter fun a => decide (¬ p a)).length = l.length := by
  induction l with
  | nil => simp
  | cons a l ih =>
    by_cases h : p a
    · rw [List.filter_cons_of_pos (by simpa using h),
        List.filter_cons_of_neg (by simp [h]), List.length_cons, List.length_cons]
      omega
    · rw [List.filter_cons_of_neg (by simpa using h),
        List.filter_cons_of_pos (by simp [h]), List.length_cons, List.length_cons]
      omega

lemma three_status_counts_le (l : List TransferInfo) :
    (l.filter fun t => decide (t.status = "active")).length +
      (l.filter fun t => decide (t.status = "completed")).length +
      (l.filter fun t =>
        decide (t.status = "failed" ∨ t.status = "cancelled" ∨
          t.status = "rejected")).length ≤ l.length := by
  induction l with
  | nil => simp
  | cons t l ih =>
    by_cases ha : t.status = "active"
    · have hc : ¬ t.status = "completed" := by rw [ha]; decide
      have hf : ¬ (t.status = "failed" ∨ t.status = "cancelled" ∨ t.status = "rejected") := by
        rw [ha]; decide
      rw [List.filter_cons_of_pos (by simpa using ha),
        List.filter_cons_of_neg (by simpa using hc),
        List.filter_cons_of_neg (by simpa using hf), List.length_cons, List.length_cons]
      omega
    · by_cases hc : t.status = "completed"
      · have hf : ¬ (t.status = "failed" ∨ t.status = "cancelled" ∨ t.status = "rejected") := by
          rw [hc]; decide
        rw [List.filter_cons_of_neg (by simpa using ha),
          List.filter_cons_of_pos (by simpa using hc),
          List.filter_cons_of_neg (by simpa using hf), List.length_cons, List.length_cons]
        omega
      · by_cases hf : t.status = "failed" ∨ t.status = "cancelled" ∨ t.status = "rejected"
        · rw [List.filter_cons_of_neg (by simpa using ha),
            List.filter_cons_of_neg (by simpa using hc),
            List.filter_cons_of_pos (by simpa using hf), List.length_cons, List.length_cons]
          omega
        · rw [List.filter_cons_of_neg (by simpa using ha),
            List.filter_cons_of_neg (by simpa using hc),
            List.filter_cons_of_neg (by simpa using hf), List.length_cons]
          omega

/-! ## Lemmas about trimming and metadata maps -/

lemma dropWhile_head?_false (p : α → Bool) (l : List α) (a : α)
    (ha : (l.dropWhile p).head? = some a) : p a = false := by
  induction l with
  | nil => simp at ha
  | cons b l ih =>
    rw [List.dropWhile_cons] at ha
    by_cases h : p b
    · rw [if_pos h] at ha
      exact ih ha
    · rw [if_neg h] at ha
      simp at ha
      subst ha
      simpa using h

lemma dropWhile_eq_self_of_head? (p : α → Bool) (l : List α)
    (h : ∀ a, l.head? = some a → p a = false) : l.dropWhile p = l := by
  cases l with
  | nil => rfl
  | cons b l =>
    rw [List.dropWhile_cons, if_neg]
    simp [h b rfl]

lemma head?_append_of_some {l t : List α} {a : α} (h : l.head? = some a) :
    (l ++ t).head? = some a := by
  cases l <;> simp_all

lemma trimChars_idem (l : List Char) : trimChars (trimChars l) = trimChars l := by
  obtain ⟨t, ht0⟩ :=
    List.rdropWhile_prefix rustIsWhitespace (l.dropWhile rustIsWhitespace)
  have ht : trimChars l ++ t = l.dropWhile rustIsWhitespace := ht0
  have hT : (trimChars l).dropWhile rustIsWhitespace = trimChars l := by
    apply dropWhile_eq_self_of_head?
    intro a ha
    have hA : (l.dropWhile rustIsWhitespace).head? = some a := by
      rw [← ht]
      exact head?_append_of_some ha
    exact dropWhile_head?_false rustIsWhitespace l a hA
  show ((trimChars l).dropWhile rustIsWhitespace).rdropWhile rustIsWhitespace = trimChars l
  rw [hT]
  exact List.rdropWhile_idempotent rustIsWhitespace (l.dropWhile rustIsWhitespace)

lemma strTrim_idem (s : String) : strTrim (strTrim s) = strTrim s := by
  show String.mk (trimChars (trimChars s.data)) = String.mk (trimChars s.data)
  rw [trimChars_idem]

lemma lookupMeta_insertMeta (m : List (String × String)) (k v : String) :
    lookupMeta (insertMeta m k v) k = some v := by
  induction m with
  | nil => simp [lookupMeta, insertMeta]
  | cons kv m ih =>
    by_cases h : kv.1 = k
    · show lookupMeta ((kv :: m).filter _ ++ [(k, v)]) k = some v
      rw [List.filter_cons_of_neg (by simp [h])]
      exact ih
    · show lookupMeta ((kv :: m).filter _ ++ [(k, v)]) k = some v
      rw [List.filter_cons_of_pos (by simpa using h), List.cons_append]
      show ((kv :: (m.filter _ ++ [(k, v)])).find? fun p => p.1 == k).map Prod.snd = some v
      rw [List.find?_cons_of_neg _ (by simpa using h)]
      exact ih

/-! ## Claim theorems -/

/-- C1 counterexample: the original claim asserts exact byte accumulation,
but the program accumulates with wrapping `u64` addition (`+=` on a `u64` in
release builds). A response of two uploads whose wire `transferred_bytes` is
`-1` (each cast by `as u64` to `2 ^ 64 - 1`) drives `total_bytes_sent` to
`2 ^ 64 - 2`, not the exact sum `2 ^ 65 - 2`. -/
theorem get_transfer_stats_exact_sum_ce :
    ¬ ((get_transfer_stats
        [{ id := "t1", peer_id := "p1", filename := "a.bin", size_bytes := -1,
           transferred_bytes := -1, status := 3, is_incoming := false,
           error_message := "" },
         { id := "t2", peer_id := "p2", filename := "b.bin", size_bytes := -1,
           transferred_bytes := -1, status := 3, is_incoming := false,
           error_message := "" }]).total_bytes_sent =
      (((list_transfers none none
        [{ id := "t1", peer_id := "p1", filename := "a.bin", size_bytes := -1,
           transferred_bytes := -1, status := 3, is_incoming := false,
           error_message := "" },
         { id := "t2", peer_id := "p2", filename := "b.bin", size_bytes := -1,
           transferred_bytes := -1, status := 3, is_incoming := false,
           error_message := "" }]).filter fun t =>
        decide (t.direction = "upload")).map TransferInfo.transferred).sum) := by
  decide

/-- C1 (amended): `get_transfer_stats` folds the list returned by
`list_transfers` with wrapping machine arithmetic — each transfer increments
exactly one of the upload/download counters modulo `2 ^ 32` (so the two
counters sum to the list length modulo `2 ^ 32`, with exact equality whenever
the length is below `2 ^ 32`), adds its transferred byte count to
`total_bytes_sent` modulo `2 ^ 64` for direction "upload" and to
`total_bytes_received` modulo `2 ^ 64` otherwise, and increments
`active_transfers` on status "active", `completed_transfers` on "completed",
and `failed_transfers` on "failed", "cancelled" or "rejected", each modulo
`2 ^ 32` (the three status counters still sum to at most the list length); the
concrete one-completed-upload-of-1000-bytes plus
one-active-download-of-500-of-2000-bytes scenario yields exactly
`TransferStats 1 1 1 1 0 1000 500`. -/
theorem get_transfer_stats_spec :
    (∀ resp : List WireTransfer,
      (get_transfer_stats resp).total_uploads =
        ((list_transfers none none resp).filter fun t =>
          decide (t.direction = "upload")).length % 2 ^ 32 ∧
      (get_transfer_stats resp).total_downloads =
        ((list_transfers none none resp).filter fun t =>
          decide (¬ t.direction = "upload")).length % 2 ^ 32 ∧
      ((get_transfer_stats resp).total_uploads +
          (get_transfer_stats resp).total_downloads) % 2 ^ 32 =
        (list_transfers none none resp).length % 2 ^ 32 ∧
      (get_transfer_stats resp).total_bytes_sent =
        (((list_transfers none none resp).filter fun t =>
          decide (t.direction = "upload")).map TransferInfo.transferred).sum % 2 ^ 64 ∧
      (get_transfer_stats resp).total_bytes_received =
        (((list_transfers none none resp).filter fun t =>
          decide (¬ t.direction = "upload")).map TransferInfo.transferred).sum % 2 ^ 64 ∧
      (get_transfer_stats resp).active_transfers =
        ((list_transfers none none resp).filter fun t =>
          decide (t.status = "active")).length % 2 ^ 32 ∧
      (get_transfer_stats resp).completed_transfers =
        ((list_transfers none none resp).filter fun t =>
          decide (t.status = "completed")).length % 2 ^ 32 ∧
      (get_transfer_stats resp).failed_transfers =
        ((list_transfers none none resp).filter fun t =>
          decide (t.status = "failed" ∨ t.status = "cancelled" ∨
            t.status = "rejected")).length % 2 ^ 32 ∧
      (get_transfer_stats resp).active_transfers +
          (get_transfer_stats resp).completed_transfers +
          (get_transfer_stats resp).failed_transfers ≤
        (list_transfers none none resp).length ∧
      ((list_transfers none none resp).length < 2 ^ 32 →
        (get_transfer_stats resp).total_uploads +
            (get_transfer_stats resp).total_downloads =
          (list_transfers none none resp).length)) ∧
    get_transfer_stats
        [{ id := "t1", peer_id := "p1", filename := "a.bin", size_bytes := 1000,
           transferred_bytes := 1000, status := 3, is_incoming := false,
           error_message := "" },
         { id := "t2", peer_id := "p2", filename := "b.bin", size_bytes := 2000,
           transferred_bytes := 500, status := 2, is_incoming := true,
           error_message := "" }] =
      { total_uploads := 1, total_downloads := 1, active_transfers := 1,
        completed_transfers := 1, failed_transfers := 0, total_bytes_sent := 1000,
        total_bytes_received := 500 } := by
  constructor
  · intro resp
    refine ⟨?_, ?_, ?_, ?_, ?_, ?_, ?_, ?_, ?_, ?_⟩
    · simp only [get_transfer_stats]
      rw [foldl_statsStep_total_uploads _ initStats (by decide)]
      congr 1
      exact Nat.zero_add _
    · simp only [get_transfer_stats]
      rw [foldl_statsStep_total_downloads _ initStats (by decide)]
      congr 1
      exact Nat.zero_add _
    · simp only [get_transfer_stats]
      rw [foldl_statsStep_total_uploads _ initStats (by decide),
        foldl_statsStep_total_downloads _ initStats (by decide)]
      simp only [initStats]
      have h := filter_length_add_filter_not
        (fun t : TransferInfo => t.direction = "upload") (list_transfers none none resp)
      omega
    · simp only [get_transfer_stats]
      rw [foldl_statsStep_bytes_sent _ initStats (by decide)]
      congr 1
      exact Nat.zero_add _
    · simp only [get_transfer_stats]
      rw [foldl_statsStep_bytes_received _ initStats (by decide)]
      congr 1
      exact Nat.zero_add _
    · simp only [get_transfer_stats]
      rw [foldl_statsStep_active _ initStats (by decide)]
      congr 1
      exact Nat.zero_add _
    · simp only [get_transfer_stats]
      rw [foldl_statsStep_completed _ initStats (by decide)]
      congr 1
      exact Nat.zero_add _
    · simp only [get_transfer_stats]
      rw [foldl_statsStep_failed _ initStats (by decide)]
      congr 1
      exact Nat.zero_add _
    · simp only [get_transfer_stats]
      rw [foldl_statsStep_active _ initStats (by decide),
        foldl_statsStep_completed _ initStats (by decide),
        foldl_statsStep_failed _ initStats (by decide)]
      simp only [initStats]
      have h := three_status_counts_le (list_transfers none none resp)
      omega
    · intro hN
      simp only [get_transfer_stats]
      rw [foldl_statsStep_total_uploads _ initStats (by decide),
        foldl_statsStep_total_downloads _ initStats (by decide)]
      simp only [initStats]
      have h := filter_length_add_filter_not
        (fun t : TransferInfo => t.direction = "upload") (list_transfers none none resp)
      omega
  · decide

/-- Witness for C1 (amended) at a concrete single-upload response, discharging
the list-length bound of the conditional conjunct. -/
theorem get_transfer_stats_spec_w :
    (list_transfers none none
        [{ id := "t1", peer_id := "p1", filename := "a.bin", size_bytes := 1000,
           transferred_bytes := 1000, status := 3, is_incoming := false,
           error_message := "" }]).length < 2 ^ 32 ∧
    (get_transfer_stats
        [{ id := "t1", peer_id := "p1", filename := "a.bin", size_bytes := 1000,
           transferred_bytes := 1000, status := 3, is_incoming := false,
           error_message := "" }]).total_uploads +
      (get_transfer_stats
        [{ id := "t1", peer_id := "p1", filename := "a.bin", size_bytes := 1000,
           transferred_bytes := 1000, status := 3, is_incoming := false,
           error_message := "" }]).total_downloads =
      (list_transfers none none
        [{ id := "t1", peer_id := "p1", filename := "a.bin", size_bytes := 1000,
           transferred_bytes := 1000, status := 3, is_incoming := false,
           error_message := "" }]).length :=
  ⟨by decide,
   (get_transfer_stats_spec.1
      [{ id := "t1", peer_id := "p1", filename := "a.bin", size_bytes := 1000,
         transferred_bytes := 1000, status := 3, is_incoming := false,
         error_message := "" }]).2.2.2.2.2.2.2.2.2 (by decide)⟩

/-- C2: `list_transfers` maps every wire transfer-status integer to a label by
the fixed table: 0 and 1 map to "pending", 2 to "active", 3 to "completed",
4 to "failed", 5 to "cancelled", and every other integer to "unknown". -/
theorem list_transfers_status_table (st pid : Option String)
    (resp : List WireTransfer) :
    (list_transfers st pid resp).map TransferInfo.status =
      resp.map fun t =>
        if t.status = 0 ∨ t.status = 1 then "pending"
        else if t.status = 2 then "active"
        else if t.status = 3 then "completed"
        else if t.status = 4 then "failed"
        else if t.status = 5 then "cancelled"
        else "unknown" := by
  simp only [list_transfers, List.map_map]
  refine List.map_congr_left fun t _ => ?_
  show transferStatusLabel t.status = _
  by_cases h0 : t.status = 0
  · simp [transferStatusLabel, h0]
  · by_cases h1 : t.status = 1
    · simp [transferStatusLabel, h0, h1]
    · simp [transferStatusLabel, h0, h1]

/-- C3: the mapped `connected` field of `get_status` is true exactly when the
wire connection-status integer equals the "connected" variant's code;
`get_peers` applies the same rule per peer, and `is_relay` is true exactly
when the peer's connection-type integer equals the "relay" variant's code. -/
theorem connected_enum_rule (w : WireStatusResponse) (resp : List WirePeer) :
    ((get_status w).connected = true ↔ w.status = connectionStatusConnected) ∧
    ((get_peers resp).map PeerInfo.connected =
      resp.map fun p => decide (p.status = connectionStatusConnected)) ∧
    ((get_peers resp).map PeerInfo.is_relay =
      resp.map fun p => decide (p.connection_type = connectionTypeRelay)) := by
  refine ⟨?_, ?_, ?_⟩
  · simp [get_status]
  · simp only [get_peers, List.map_map]
    exact List.map_congr_left fun p _ => rfl
  · simp only [get_peers, List.map_map]
    exact List.map_congr_left fun p _ => rfl

/-- C4: `add_auth` is total — it always returns a request. When the
credential is a valid metadata value the result carries the auth header with
that value (and the body is unchanged); when it is not, the result is the
input request unchanged. -/
theorem add_auth_total {T : Type} (token : String) (r : GRequest T) :
    (is_valid_metadata_value token = true →
      lookupMeta (add_auth token r).metadata IPC_TOKEN_HEADER = some token ∧
      (add_auth token r).body = r.body) ∧
    (is_valid_metadata_value token = false → add_auth token r = r) := by
  constructor
  · intro h
    constructor
    · simp only [add_auth, h, if_true]
      exact lookupMeta_insertMeta r.metadata IPC_TOKEN_HEADER token
    · simp [add_auth, h]
  · intro h
    simp [add_auth, h]

/-- Witness for C4 at a concrete valid and a concrete invalid credential. -/
theorem add_auth_total_w :
    (is_valid_metadata_value "secret-token" = true ∧
      lookupMeta
        (add_auth "secret-token"
          ({ metadata := [], body := () } : GRequest Unit)).metadata
        IPC_TOKEN_HEADER = some "secret-token") ∧
    (is_valid_metadata_value "bad\ntoken" = false ∧
      add_auth "bad\ntoken" ({ metadata := [], body := () } : GRequest Unit) =
        { metadata := [], body := () }) :=
  ⟨⟨by decide,
    ((add_auth_total "secret-token" { metadata := [], body := () }).1 (by decide)).1⟩,
   ⟨by decide,
    (add_auth_total "bad\ntoken" { metadata := [], body := () }).2 (by decide)⟩⟩

/-- C5: the liveness probe never returns an error: it yields `Ok b` for every
outcome of the fresh connect and status steps, with `b = true` exactly when
both steps succeed, and the result is independent of the cached bridge. -/
theorem daemon_is_running_never_errs (st st2 : Option Bridge)
    (c : Except DaemonError Bridge)
    (g : Bridge → Except DaemonError DaemonStatus) :
    (∃ b : Bool, daemon_is_running st c g = .ok b) ∧
    (daemon_is_running st c g = .ok true ↔
      ∃ client, c = .ok client ∧ ∃ ds, g client = .ok ds) ∧
    daemon_is_running st c g = daemon_is_running st2 c g := by
  refine ⟨?_, ?_, rfl⟩
  · cases c with
    | error e => exact ⟨false, rfl⟩
    | ok client =>
      cases hg : g client with
      | error e => exact ⟨false, by simp [daemon_is_running, hg]⟩
      | ok ds => exact ⟨true, by simp [daemon_is_running, hg]⟩
  · cases c with
    | error e => simp [daemon_is_running]
    | ok client =>
      cases hg : g client with
      | error e => simp [daemon_is_running, hg]
      | ok ds => simp [daemon_is_running, hg]

/-- C6: a successful `join_network` always returns `invite_code = ""`
regardless of the wire response, while a successful `create_network` returns
the daemon-supplied invite code unchanged. -/
theorem network_invite_code_policy :
    (∀ (resp : JoinNetworkResponse) (ni : NetworkInfo),
      join_network resp = .ok ni → ni.invite_code = "") ∧
    (∀ (resp : CreateNetworkResponse) (ni : NetworkInfo),
      create_network resp = .ok ni → ni.invite_code = resp.invite_code) := by
  constructor
  · intro resp ni h
    cases hn : resp.network with
    | none => simp [join_network, hn] at h
    | some network =>
      simp [join_network, hn] at h
      rw [← h]
  · intro resp ni h
    cases hn : resp.network with
    | none => simp [create_network, hn] at h
    | some network =>
      simp [create_network, hn] at h
      rw [← h]

/-- Witness for C6 at a concrete join and create response. -/
theorem network_invite_code_policy_w :
    (join_network { network := some { id := "n1", name := "Team A", invite_code := "XYZ" } } =
      Except.ok { id := "n1", name := "Team A", invite_code := "" } ∧
      NetworkInfo.invite_code { id := "n1", name := "Team A", invite_code := "" } = "") ∧
    (create_network
        { network := some { id := "n1", name := "Team A", invite_code := "" },
          invite_code := "XYZ" } =
      Except.ok { id := "n1", name := "Team A", invite_code := "XYZ" } ∧
      NetworkInfo.invite_code { id := "n1", name := "Team A", invite_code := "XYZ" } =
        CreateNetworkResponse.invite_code
          { network := some { id := "n1", name := "Team A", invite_code := "" },
            invite_code := "XYZ" }) :=
  ⟨⟨rfl,
    network_invite_code_policy.1
      { network := some { id := "n1", name := "Team A", invite_code := "XYZ" } }
      { id := "n1", name := "Team A", invite_code := "" } rfl⟩,
   ⟨rfl,
    network_invite_code_policy.2
      { network := some { id := "n1", name := "Team A", invite_code := "" },
        invite_code := "XYZ" }
      { id := "n1", name := "Team A", invite_code := "XYZ" } rfl⟩⟩

/-- C7: every chat message mapped by `get_messages` has `is_self = false`, and
its `timestamp` is the elapsed-seconds decimal representation of the wire
message's structured time value (empty when the wire carries none). -/
theorem get_messages_selfflag_timestamp (nid : String) (limit : Int)
    (before : Option String) (resp : List WireChatMessage) :
    ((get_messages nid limit before resp).map ChatMessage.is_self =
      List.replicate resp.length false) ∧
    ((get_messages nid limit before resp).map ChatMessage.timestamp =
      resp.map fun m =>
        match m.sent_at with
        | some t => toString t.seconds
        | none => "") := by
  constructor
  · simp only [get_messages, List.map_map]
    have h : resp.map (ChatMessage.is_self ∘ mapMessage) = resp.map fun _ => false :=
      List.map_congr_left fun m _ => rfl
    rw [h]
    exact List.map_const' resp false
  · simp only [get_messages, List.map_map]
    refine List.map_congr_left fun m _ => ?_
    show (m.sent_at.map fun t => toString t.seconds).getD "" = _
    cases m.sent_at <;> rfl

/-- C8: a successfully loaded credential is the token file's contents with
surrounding whitespace removed, and is therefore a fixed point of trimming. -/
theorem load_ipc_token_trimmed (fc : Except String String) (tok : String)
    (h : load_ipc_token fc = .ok tok) :
    (∃ s, fc = .ok s ∧ tok = strTrim s) ∧ strTrim tok = tok := by
  cases fc with
  | error e => simp [load_ipc_token] at h
  | ok s =>
    simp only [load_ipc_token, Except.ok.injEq] at h
    subst h
    exact ⟨⟨s, rfl, rfl⟩, strTrim_idem s⟩

/-- Witness for C8 at a concrete token file content. -/
theorem load_ipc_token_trimmed_w :
    load_ipc_token (Except.ok "  go-token\n") = Except.ok "go-token" ∧
    ((∃ s, (Except.ok "  go-token\n" : Except String String) = Except.ok s ∧
        "go-token" = strTrim s) ∧ strTrim "go-token" = "go-token") := by
  have h : load_ipc_token (Except.ok "  go-token\n") = Except.ok "go-token" := by
    show Except.ok (strTrim "  go-token\n") = Except.ok "go-token"
    congr 1
  exact ⟨h, load_ipc_token_trimmed (Except.ok "  go-token\n") "go-token" h⟩

/-- C9: `list_transfers` ignores its status and peer-id filter arguments —
both the mapped result and the wire request sent are identical for any two
pairs of filter values. -/
theorem list_transfers_filter_independent (s1 p1 s2 p2 : Option String)
    (token : String) (resp : List WireTransfer) :
    list_transfers s1 p1 resp = list_transfers s2 p2 resp ∧
    list_transfers_request token s1 p1 = list_transfers_request token s2 p2 :=
  ⟨rfl, rfl⟩

/-- C10: every `Settings` value produced by `get_settings`, `update_settings`
or `reset_settings` has `log_level = ""`, regardless of the wire response. -/
theorem settings_log_level_always_empty (st : Settings) (resp : WireSettings) :
    (get_settings resp).log_level = "" ∧
    (update_settings st resp).log_level = "" ∧
    (reset_settings resp).log_level = "" :=
  ⟨rfl, rfl, rfl⟩

end GoConnect
